import Mathlib

/-!
Verification of the token-based authentication and transactional
user-creation core of `facility_reservation_go`.

The Go source is shallowly embedded: the relational store (tables
`users` and `user_tokens` from `_db/schema.sql`) is a pair of lists of
rows, SQL statements from `_db/query_users.sql` become pure functions
over that state, Go errors (`errors.New`, `fmt.Errorf("...: %w", err)`,
`derrors.Wrap`) become an inductive wrap-chain, and the transaction
machinery of `internal/database.go` (`commitStrategy.execute`,
`DatabaseService.Transaction`, `DataStore.Transaction`) becomes explicit
state passing with injectable infrastructure faults and an event trace
recording every database interaction.
-/

namespace FacilityReservation

/-- A row of the `users` table: `id` (uuid, primary key),
`username` (unique), `is_staff`.  UUIDs are opaque identifiers,
modelled as `Nat`. -/
structure UserRow where
  id : Nat
  username : String
  isStaff : Bool
  deriving DecidableEq, Repr

/-- A row of the `user_tokens` table: `id` (primary key), `user_id`
(foreign key to `users.id`), `token` (the secret, unique), `name`,
`expires_at` (nullable).  Timestamps are modelled as `Nat`. -/
structure TokenRow where
  id : Nat
  userID : Nat
  token : String
  name : String
  expiresAt : Option Nat
  deriving DecidableEq, Repr

/-- The database state: the two tables the authentication core touches. -/
structure Store where
  users : List UserRow
  tokens : List TokenRow
  deriving DecidableEq, Repr

/-- Store-level errors surfaced by the database driver. -/
inductive StoreError where
  /-- A unique-constraint violation, carrying the constraint name
  (`users_username_key`, `user_tokens_token_key`, `users_pkey`,
  `user_tokens_pkey`). -/
  | uniqueViolation (constraint : String)
  /-- A foreign-key violation (`user_tokens_user_id_fkey`). -/
  | fkViolation (constraint : String)
  /-- No rows returned by a `:one` query (`pgx.ErrNoRows`). -/
  | notFound
  /-- Infrastructure failure: lost connection, timeout. -/
  | connectionFailure
  deriving DecidableEq, Repr

/-- Go errors as the code builds them: `errors.New(s)` is `msg s`,
`fmt.Errorf("ctx: %w", e)` and `derrors.Wrap` are `wrap ctx e`, and a
raw driver error is `store e`. -/
inductive GoError where
  | msg (s : String)
  | store (e : StoreError)
  | wrap (context : String) (inner : GoError)
  deriving DecidableEq, Repr

/-- The innermost error of a wrap chain, i.e. what `errors.Unwrap`
reaches last (what `errors.Is`/`errors.As` ultimately match against). -/
def GoError.base : GoError → GoError
  | .msg s => .msg s
  | .store e => .store e
  | .wrap _ inner => inner.base

/-- One observable interaction with the database; the trace of these
events records exactly which store calls an operation performed. -/
inductive DbEvent where
  | txBegin
  | insertUser (username : String)
  | insertToken (secret : String)
  /-- `ok` is false when the commit itself failed. -/
  | txCommit (ok : Bool)
  /-- `failed` is true when the rollback call itself returned an error
  (which the code only logs). -/
  | txRollback (failed : Bool)
  | queryGetUserByToken (token : String)
  deriving DecidableEq, Repr

/-! ## SQL statements (`_db/query_users.sql`, constraints from
`_db/schema.sql`) -/

/-- Parameters of the sqlc-generated `CreateUser` insert
(`db.CreateUserParams`). -/
structure DbCreateUserParams where
  id : Nat
  username : String
  isStaff : Bool
  deriving DecidableEq, Repr

/-- Parameters of the sqlc-generated `CreateToken` insert
(`db.CreateTokenParams`). -/
structure DbCreateTokenParams where
  id : Nat
  userID : Nat
  token : String
  name : String
  expiresAt : Option Nat
  deriving DecidableEq, Repr

/-- `INSERT INTO users (id, username, is_staff) VALUES (...)`, subject
to the `users_pkey` and `users_username_key` constraints. -/
def dbCreateUser (s : Store) (p : DbCreateUserParams) :
    Except StoreError (UserRow × Store) :=
  if s.users.any (fun u => u.id = p.id) then
    .error (.uniqueViolation "users_pkey")
  else if s.users.any (fun u => u.username = p.username) then
    .error (.uniqueViolation "users_username_key")
  else
    let row : UserRow := ⟨p.id, p.username, p.isStaff⟩
    .ok (row, ⟨row :: s.users, s.tokens⟩)

/-- `INSERT INTO user_tokens (id, user_id, token, name, expires_at)
VALUES (...)`, subject to `user_tokens_pkey`, `user_tokens_token_key`
and the foreign key `user_tokens_user_id_fkey`. -/
def dbCreateToken (s : Store) (p : DbCreateTokenParams) :
    Except StoreError (TokenRow × Store) :=
  if s.tokens.any (fun t => t.id = p.id) then
    .error (.uniqueViolation "user_tokens_pkey")
  else if s.tokens.any (fun t => t.token = p.token) then
    .error (.uniqueViolation "user_tokens_token_key")
  else if ¬ s.users.any (fun u => u.id = p.userID) then
    .error (.fkViolation "user_tokens_user_id_fkey")
  else
    let row : TokenRow := ⟨p.id, p.userID, p.token, p.name, p.expiresAt⟩
    .ok (row, ⟨s.users, row :: s.tokens⟩)

/-- Result row of the `GetUserByToken` query
(`db.GetUserByTokenRow`): `u.id, u.username, u.is_staff`. -/
structure GetUserByTokenRow where
  id : Nat
  username : String
  isStaff : Bool
  deriving DecidableEq, Repr

/-- The expiry condition of `GetUserByToken`:
`t.expires_at IS NULL OR t.expires_at > NOW()`. -/
def tokenAlive (now : Nat) (t : TokenRow) : Bool :=
  match t.expiresAt with
  | none => true
  | some e => now < e

/-- `SELECT u.id, u.username, u.is_staff FROM users u JOIN user_tokens t
ON u.id = t.user_id WHERE t.token = $1 AND (t.expires_at IS NULL OR
t.expires_at > NOW())` — all matching joined rows. -/
def getUserByTokenRows (s : Store) (now : Nat) (token : String) :
    List GetUserByTokenRow :=
  (s.tokens.filter (fun t => t.token = token ∧ tokenAlive now t)).filterMap
    (fun t => (s.users.find? (fun u => u.id = t.userID)).map
      (fun u => ⟨u.id, u.username, u.isStaff⟩))

/-- The `:one` form of `GetUserByToken`: the first matching row, or
`pgx.ErrNoRows` when there is none. -/
def dbGetUserByToken (s : Store) (now : Nat) (token : String) :
    Except StoreError GetUserByTokenRow :=
  match getUserByTokenRows s now token with
  | [] => .error .notFound
  | r :: _ => .ok r

/-! ## Token generation (`internal/user.go`: `generateToken`,
`tokenSizeBytes`, the Go `encoding/hex` package) -/

/-- `const tokenSizeBytes = 32` -/
def tokenSizeBytes : Nat := 32

/-- the Go `encoding/hex` package digit table `"0123456789abcdef"`. -/
def hextable : List Char :=
  "0123456789abcdef".data

/-- Hex encoding of one byte: `hextable[b>>4], hextable[b&0x0f]`. -/
def hexEncodeByte (b : Nat) : List Char :=
  [hextable.getD (b / 16 % 16) '0', hextable.getD (b % 16) '0']

/-- The character stream of `hex.EncodeToString`. -/
def hexEncodeChars : List Nat → List Char
  | [] => []
  | b :: bs => hexEncodeByte b ++ hexEncodeChars bs

/-- `hex.EncodeToString`: two lowercase hex digits per byte. -/
def hexEncode (bs : List Nat) : String :=
  ⟨hexEncodeChars bs⟩

/-- `generateToken`: fill `tokenSizeBytes` bytes from the random source
(`crypto/rand.Read`, modelled as an arbitrary byte source) and
hex-encode them. -/
def generateToken (randSrc : Nat → Nat) : String :=
  hexEncode ((List.range tokenSizeBytes).map (fun i => randSrc i % 256))

/-! ## Transaction machinery (`internal/database.go`,
`internal/datastore.go`) -/

/-- Injectable infrastructure faults for one transaction execution:
whether `pool.Begin`, the token insert (as a stand-in for any
infrastructure failure of a statement inside the unit of work),
`tx.Commit` and `tx.Rollback` fail. -/
structure TxFaults where
  beginFails : Bool
  tokenInsertFails : Bool
  commitFails : Bool
  rollbackFails : Bool
  deriving DecidableEq, Repr

/-- No injected faults. -/
def TxFaults.none : TxFaults := ⟨false, false, false, false⟩

/-- `commitStrategy.execute`: run the unit of work against the
transactional view of the store; on error return that error unchanged
(the deferred `tx.Rollback` discards the writes of the transaction, and a
rollback failure is only logged); on success `tx.Commit` publishes the
transaction state, a commit failure is wrapped as
`"failed to commit transaction"` and the writes are discarded (the
deferred rollback aborts the open transaction; after a successful
commit the deferred rollback returns `ErrTxClosed`, which is logged). -/
def commitStrategyExecute {α : Type} (faults : TxFaults) (st : Store)
    (fn : Store → Except GoError (α × Store) × List DbEvent) :
    Except GoError α × Store × List DbEvent :=
  match fn st with
  | (.error e, evs) =>
      (.error e, st, evs ++ [.txRollback faults.rollbackFails])
  | (.ok (a, st'), evs) =>
      if faults.commitFails then
        (.error (.wrap "failed to commit transaction"
            (.store .connectionFailure)),
         st, evs ++ [.txCommit false, .txRollback faults.rollbackFails])
      else
        (.ok a, st', evs ++ [.txCommit true, .txRollback true])

/-- `DatabaseService.Transaction`: `pool.Begin`, wrapping a begin
failure as `"failed to begin transaction"`, then
`commitStrategy.execute`. -/
def databaseServiceTransaction {α : Type} (faults : TxFaults) (st : Store)
    (fn : Store → Except GoError (α × Store) × List DbEvent) :
    Except GoError α × Store × List DbEvent :=
  if faults.beginFails then
    (.error (.wrap "failed to begin transaction" (.store .connectionFailure)),
     st, [.txBegin])
  else
    match commitStrategyExecute faults st fn with
    | (r, st', evs) => (r, st', .txBegin :: evs)

/-- `DataStore.Transaction`: delegate to the database service and let
the deferred `derrors.Wrap` add the `"DataStore.Transaction(ctx, fn)"`
context to any error. -/
def dataStoreTransaction {α : Type} (faults : TxFaults) (st : Store)
    (fn : Store → Except GoError (α × Store) × List DbEvent) :
    Except GoError α × Store × List DbEvent :=
  match databaseServiceTransaction faults st fn with
  | (.error e, st', evs) =>
      (.error (.wrap "DataStore.Transaction(ctx, fn)" e), st', evs)
  | (.ok a, st', evs) => (.ok a, st', evs)

/-! ## The authentication core (`internal/user.go`) -/

/-- `internal.AuthenticatedUser`: id, username, staff flag.  In the Go
struct the id is the user UUID rendered as a string; the opaque `Nat`
stands for it here. -/
structure AuthenticatedUser where
  id : Nat
  username : String
  isStaff : Bool
  deriving DecidableEq, Repr

/-- `internal.CreateUserParams`. -/
structure CreateUserParams where
  username : String
  isStaff : Bool
  deriving DecidableEq, Repr

/-- `internal.CreateUserResult`: the created user row and token row. -/
structure CreateUserResult where
  user : UserRow
  token : TokenRow
  deriving DecidableEq, Repr

/-- The nondeterministic inputs of one `CreateUser` call: the two
freshly generated UUIDv7 values and the CSPRNG byte source consumed by
`generateToken`. -/
structure Freshness where
  userID : Nat
  tokenID : Nat
  randSrc : Nat → Nat

/-- The unit of work `CreateUser` passes to `ds.Transaction`: insert
the user row (wrapping a failure as `"failed to create user"`), then
insert the token row with name `"Default Token"` and no expiration
(wrapping a failure as `"failed to create token"`).
`faults.tokenInsertFails` injects an infrastructure failure into the
token insert. -/
def createUserTxFn (params : CreateUserParams) (fresh : Freshness)
    (faults : TxFaults) (st : Store) :
    Except GoError (CreateUserResult × Store) × List DbEvent :=
  match dbCreateUser st ⟨fresh.userID, params.username, params.isStaff⟩ with
  | .error e =>
      (.error (.wrap "failed to create user" (.store e)),
       [.insertUser params.username])
  | .ok (u, st1) =>
      let secret := generateToken fresh.randSrc
      if faults.tokenInsertFails then
        (.error (.wrap "failed to create token" (.store .connectionFailure)),
         [.insertUser params.username, .insertToken secret])
      else
        match dbCreateToken st1
            ⟨fresh.tokenID, u.id, secret, "Default Token", Option.none⟩ with
        | .error e =>
            (.error (.wrap "failed to create token" (.store e)),
             [.insertUser params.username, .insertToken secret])
        | .ok (t, st2) =>
            (.ok (⟨u, t⟩, st2),
             [.insertUser params.username, .insertToken secret])

/-- The deferred `derrors.Wrap` context of `CreateUser`. -/
def createUserWrapCtx : String := "CreateUser(ctx, ds, user, params)"

/-- `internal.CreateUser`: reject a nil actor
(`"authenticated user is required"`) and a non-staff actor
(`"only staff users can create new users"`) before any database
interaction; otherwise run the user+token inserts inside
`ds.Transaction`, wrapping a transaction error as
`"transaction failed"`.  The deferred `derrors.Wrap` adds the
`CreateUser` context to every error.  Returns the result, the final
store state and the trace of database events. -/
def CreateUser (st : Store) (actor : Option AuthenticatedUser)
    (params : CreateUserParams) (fresh : Freshness) (faults : TxFaults) :
    Except GoError CreateUserResult × Store × List DbEvent :=
  match actor with
  | .none =>
      (.error (.wrap createUserWrapCtx (.msg "authenticated user is required")),
       st, [])
  | .some a =>
      if ¬ a.isStaff then
        (.error (.wrap createUserWrapCtx
            (.msg "only staff users can create new users")), st, [])
      else
        match dataStoreTransaction faults st
            (createUserTxFn params fresh faults) with
        | (.error e, st', evs) =>
            (.error (.wrap createUserWrapCtx (.wrap "transaction failed" e)),
             st', evs)
        | (.ok res, st', evs) => (.ok res, st', evs)

/-- The deferred `derrors.Wrap` context of `GetAuthenticatedUser`. -/
def getAuthWrapCtx : String := "GetAuthenticatedUser(ctx, querier, token)"

/-- `internal.GetAuthenticatedUser`: query the store with
`GetUserByToken`; any query error becomes
`"invalid or expired token"`; on success map the joined row to an
`AuthenticatedUser`.  The querier is the live store, so the nil-querier
guard never fires here.  Returns the result and the trace of database
events. -/
def GetAuthenticatedUser (st : Store) (now : Nat) (token : String) :
    Except GoError AuthenticatedUser × List DbEvent :=
  match dbGetUserByToken st now token with
  | .error _ =>
      (.error (.wrap getAuthWrapCtx (.msg "invalid or expired token")),
       [.queryGetUserByToken token])
  | .ok row =>
      (.ok ⟨row.id, row.username, row.isStaff⟩,
       [.queryGetUserByToken token])

/-! ## HTTP authentication middleware
(`internal/middlewares`: `AuthMiddleware`, `extractBearerToken`,
`authenticateToken`) -/

/-- `strings.HasPrefix`, at the character level (the headers involved
are ASCII, so Go bytes and characters coincide). -/
def hasPrefixChars (s p : String) : Bool :=
  p.data.isPrefixOf s.data

/-- Dropping the first `n` characters of a string. -/
def strDrop (s : String) (n : Nat) : String :=
  ⟨s.data.drop n⟩

/-- `strings.TrimPrefix`: remove the prefix when present, otherwise
return the string unchanged. -/
def trimPrefixStr (s p : String) : String :=
  if hasPrefixChars s p then strDrop s p.data.length else s

/-- The `"Bearer "` scheme prefix. -/
def bearerScheme : String := "Bearer "

/-- `extractBearerToken`: `r.Header.Get("Authorization")` yields the
empty string for a missing header; reject a missing header, a header
not using the Bearer scheme, and an empty token after the prefix. -/
def extractBearerToken (authHeader : String) : Except GoError String :=
  if authHeader = "" then
    .error (.msg "missing authorization header")
  else if ¬ hasPrefixChars authHeader bearerScheme then
    .error (.msg "authorization header must use Bearer scheme")
  else
    let token := trimPrefixStr authHeader bearerScheme
    if token = "" then
      .error (.msg "empty token in authorization header")
    else
      .ok token

/-- `authenticateToken`: delegate to `GetAuthenticatedUser` (the
querier is the live store, so the nil guard never fires), wrapping an
error as `"authentication failed"`. -/
def authenticateToken (st : Store) (now : Nat) (token : String) :
    Except GoError AuthenticatedUser × List DbEvent :=
  match GetAuthenticatedUser st now token with
  | (.error e, evs) => (.error (.wrap "authentication failed" e), evs)
  | (.ok u, evs) => (.ok u, evs)

/-- What the middleware does with a request: either it writes an HTTP
error response itself and stops, or it calls the wrapped handler with
the authenticated user stored in the request context. -/
inductive MiddlewareOutcome where
  | respond (status : Nat) (body : String)
  | callNext (user : AuthenticatedUser)
  deriving DecidableEq, Repr

/-- `AuthMiddleware`: extract the bearer token from the Authorization
header, authenticate it, and only then call the next handler; on
either failure respond `401` with body `"Unauthorized"`
(`http.Error(w, "Unauthorized", http.StatusUnauthorized)`). -/
def AuthMiddleware (st : Store) (now : Nat) (authHeader : String) :
    MiddlewareOutcome :=
  match extractBearerToken authHeader with
  | .error _ => .respond 401 "Unauthorized"
  | .ok token =>
      match authenticateToken st now token with
      | (.error _, _) => .respond 401 "Unauthorized"
      | (.ok user, _) => .callNext user

/-! ## Schema invariants and sample data -/

/-- The invariants the schema enforces on the live store: user ids are
unique (`users_pkey`), token secrets are unique
(`user_tokens_token_key`), and every token references an existing user
(`user_tokens_user_id_fkey`). -/
def StoreInv (s : Store) : Prop :=
  (s.users.map UserRow.id).Nodup ∧
  (s.tokens.map TokenRow.token).Nodup ∧
  ∀ t ∈ s.tokens, ∃ u ∈ s.users, u.id = t.userID

instance (s : Store) : Decidable (StoreInv s) := by
  unfold StoreInv; infer_instance

/-- Sample staff user for concrete executions. -/
def sampleRoot : UserRow := ⟨1, "root", true⟩

/-- Sample non-staff user for concrete executions. -/
def sampleAlice : UserRow := ⟨2, "alice", false⟩

/-- Sample token with no expiry, owned by `sampleRoot`. -/
def sampleLiveToken : TokenRow := ⟨10, 1, "aa", "Default Token", Option.none⟩

/-- Sample token owned by `sampleAlice` that expired at time 5. -/
def sampleExpiredToken : TokenRow := ⟨11, 2, "bb", "Default Token", Option.some 5⟩

/-- Sample store holding both users and both tokens. -/
def sampleStore : Store := ⟨[sampleRoot, sampleAlice], [sampleLiveToken, sampleExpiredToken]⟩

/-- Sample fresh identifiers and byte source for `CreateUser` runs. -/
def sampleFresh : Freshness := ⟨100, 101, fun _ => 7⟩

/-- The staff actor corresponding to `sampleRoot`. -/
def rootActor : AuthenticatedUser := ⟨1, "root", true⟩

/-- The non-staff actor corresponding to `sampleAlice`. -/
def aliceActor : AuthenticatedUser := ⟨2, "alice", false⟩

/-! ## Helper lemmas -/

/-- `List.getD` on a list containing its own default always lands in
the list. -/
theorem getD_mem_of_default_mem {l : List Char} {n : Nat} {d : Char}
    (hd : d ∈ l) : l.getD n d ∈ l := by
  rcases h : l[n]? with _ | c
  · simpa [List.getD_eq_getElem?_getD, h] using hd
  · have hc : c ∈ l := List.mem_iff_getElem?.mpr ⟨n, h⟩
    simpa [List.getD_eq_getElem?_getD, h] using hc

/-- Every character `hexEncodeByte` emits is a hex digit. -/
theorem hexEncodeByte_mem (b : Nat) (c : Char) (hc : c ∈ hexEncodeByte b) :
    c ∈ hextable := by
  have hd : '0' ∈ hextable := by decide
  simp only [hexEncodeByte, List.mem_cons, List.not_mem_nil, or_false] at hc
  rcases hc with h | h <;> subst h <;> exact getD_mem_of_default_mem hd

/-- Every character of a hex-encoded byte stream is a hex digit. -/
theorem hexEncodeChars_mem (bs : List Nat) (c : Char)
    (hc : c ∈ hexEncodeChars bs) : c ∈ hextable := by
  induction bs with
  | nil => cases hc
  | cons b bs ih =>
      rcases List.mem_append.mp hc with h | h
      · exact hexEncodeByte_mem b c h
      · exact ih h

/-- Hex encoding emits two characters per byte. -/
theorem hexEncodeChars_length (bs : List Nat) :
    (hexEncodeChars bs).length = 2 * bs.length := by
  induction bs with
  | nil => rfl
  | cons b bs ih =>
      simp only [hexEncodeChars, List.length_append, List.length_cons, ih,
        hexEncodeByte, List.length_nil]
      omega

/-- Claim C5: for every byte source, `generateToken` returns a string
of exactly 64 characters, each a lowercase hexadecimal digit in
`[0-9a-f]` (the 32 bytes read from the CSPRNG are modelled as an
arbitrary byte source). -/
theorem generateToken_is_64_lowercase_hex (r : Nat → Nat) :
    (generateToken r).length = 64 ∧
    (generateToken r).data.all
      (fun c => (('0' ≤ c && c ≤ '9') || ('a' ≤ c && c ≤ 'f'))) = true := by
  constructor
  · show (hexEncodeChars _).length = 64
    rw [hexEncodeChars_length]
    simp [tokenSizeBytes]
  · rw [List.all_eq_true]
    have hall : ∀ c ∈ hextable,
        (('0' ≤ c && c ≤ '9') || ('a' ≤ c && c ≤ 'f')) = true := by decide
    intro c hc
    exact hall c (hexEncodeChars_mem _ c hc)

/-- Claim C9: when the unit of work fails and the subsequent rollback
also fails, the rollback failure is only recorded in the event trace
(the code logs it) and the error returned to the caller is the original
error of the unit of work, never the rollback error; the store is left
unchanged. -/
theorem commitStrategy_propagates_original_error {α : Type}
    (faults : TxFaults) (st : Store)
    (fn : Store → Except GoError (α × Store) × List DbEvent)
    (e : GoError) (evs : List DbEvent)
    (hrb : faults.rollbackFails = true)
    (hfn : fn st = (.error e, evs)) :
    commitStrategyExecute faults st fn =
      (.error e, st, evs ++ [.txRollback true]) := by
  simp only [commitStrategyExecute, hfn, hrb]

/-- Witness for C9: a concrete unit of work failing with a concrete
error, under a failing rollback. -/
theorem commitStrategy_propagates_original_error_witness :
    commitStrategyExecute ⟨false, false, false, true⟩ sampleStore
      (fun _ => ((.error (.msg "boom") : Except GoError (Unit × Store)), [])) =
      (.error (.msg "boom"), sampleStore, [.txRollback true]) :=
  commitStrategy_propagates_original_error ⟨false, false, false, true⟩
    sampleStore _ (.msg "boom") [] rfl rfl

/-- Claim C2: `CreateUser` rejects a nil actor with the
authorization-required error and a non-staff actor with the
insufficient-privilege error, in both cases with the store unchanged
and an empty database-event trace (no transaction begun, no rows
inserted); for a staff actor the privilege check passes: any error the
call still returns is not one of the two privilege errors. -/
theorem createUser_privilege_gate (s : Store) (params : CreateUserParams)
    (fresh : Freshness) (faults : TxFaults) :
    (CreateUser s Option.none params fresh faults =
      (.error (.wrap createUserWrapCtx (.msg "authenticated user is required")),
       s, []))
    ∧ (∀ a : AuthenticatedUser, a.isStaff = false →
        CreateUser s (.some a) params fresh faults =
          (.error (.wrap createUserWrapCtx
            (.msg "only staff users can create new users")), s, []))
    ∧ (∀ a : AuthenticatedUser, a.isStaff = true → ∀ e : GoError,
        (CreateUser s (.some a) params fresh faults).1 = .error e →
        e ≠ .wrap createUserWrapCtx (.msg "authenticated user is required") ∧
        e ≠ .wrap createUserWrapCtx
              (.msg "only staff users can create new users")) := by
  refine ⟨rfl, ?_, ?_⟩
  · intro a ha
    simp only [CreateUser, ha, Bool.false_eq_true, not_false_iff, if_pos]
  · intro a ha e he
    simp only [CreateUser, ha, not_true, if_neg, not_false_iff] at he
    rcases hds : dataStoreTransaction faults s (createUserTxFn params fresh faults)
      with ⟨r, st', evs⟩
    cases r with
    | error e0 =>
        rw [hds] at he
        simp only at he
        cases he
        constructor <;> intro hcontra <;> cases hcontra
    | ok res =>
        rw [hds] at he
        simp at he

/-- Witness for C2: the non-staff actor `aliceActor` is rejected with
the insufficient-privilege error, leaving the sample store untouched
and the event trace empty. -/
theorem createUser_privilege_gate_witness :
    CreateUser sampleStore (.some aliceActor) ⟨"bob", false⟩ sampleFresh
      TxFaults.none =
      (.error (.wrap createUserWrapCtx
        (.msg "only staff users can create new users")), sampleStore, []) :=
  (createUser_privilege_gate sampleStore ⟨"bob", false⟩ sampleFresh
    TxFaults.none).2.1 aliceActor rfl

/-- Claim C1: when the token insert or the commit fails after the user
insert succeeded (staff actor, fresh user id, free username, transaction
begun), `CreateUser` returns an error, the final store equals the
initial store (the user row does not survive), and the trace shows the
user insert did happen. -/
theorem createUser_atomic_on_late_failure (s : Store) (a : AuthenticatedUser)
    (params : CreateUserParams) (fresh : Freshness) (faults : TxFaults)
    (hstaff : a.isStaff = true)
    (hfreeid : s.users.any (fun u => u.id = fresh.userID) = false)
    (hfreename : s.users.any (fun u => u.username = params.username) = false)
    (hfault : faults.tokenInsertFails = true ∨ faults.commitFails = true)
    (hbegin : faults.beginFails = false) :
    (∃ e, (CreateUser s (.some a) params fresh faults).1 = .error e)
    ∧ (CreateUser s (.some a) params fresh faults).2.1 = s
    ∧ DbEvent.insertUser params.username ∈
        (CreateUser s (.some a) params fresh faults).2.2 := by
  have hrow : dbCreateUser s ⟨fresh.userID, params.username, params.isStaff⟩ =
      .ok (⟨fresh.userID, params.username, params.isStaff⟩,
           ⟨⟨fresh.userID, params.username, params.isStaff⟩ :: s.users,
            s.tokens⟩) := by
    simp [dbCreateUser, hfreeid, hfreename]
  cases htf : faults.tokenInsertFails with
  | true =>
      have hfn : createUserTxFn params fresh faults s =
          (.error (.wrap "failed to create token" (.store .connectionFailure)),
           [.insertUser params.username,
            .insertToken (generateToken fresh.randSrc)]) := by
        simp [createUserTxFn, hrow, htf]
      simp [CreateUser, hstaff, dataStoreTransaction, databaseServiceTransaction,
        hbegin, commitStrategyExecute, hfn]
  | false =>
      have hcf : faults.commitFails = true := by
        rcases hfault with h | h
        · rw [htf] at h; cases h
        · exact h
      rcases hdt : dbCreateToken
          ⟨⟨fresh.userID, params.username, params.isStaff⟩ :: s.users, s.tokens⟩
          ⟨fresh.tokenID, fresh.userID, generateToken fresh.randSrc,
           "Default Token", Option.none⟩ with e | p
      · have hfn : createUserTxFn params fresh faults s =
            (.error (.wrap "failed to create token" (.store e)),
             [.insertUser params.username,
              .insertToken (generateToken fresh.randSrc)]) := by
          simp [createUserTxFn, hrow, htf, hdt]
        simp [CreateUser, hstaff, dataStoreTransaction,
          databaseServiceTransaction, hbegin, commitStrategyExecute, hfn]
      · obtain ⟨t, st2⟩ := p
        have hfn : createUserTxFn params fresh faults s =
            (.ok (⟨⟨fresh.userID, params.username, params.isStaff⟩, t⟩, st2),
             [.insertUser params.username,
              .insertToken (generateToken fresh.randSrc)]) := by
          simp [createUserTxFn, hrow, htf, hdt]
        simp [CreateUser, hstaff, dataStoreTransaction,
          databaseServiceTransaction, hbegin, commitStrategyExecute, hfn, hcf]

/-- Witness for C1: a forced token-insert failure in the sample store:
the user insert happens, the call errors, and the store is unchanged. -/
theorem createUser_atomic_on_late_failure_witness :
    (∃ e, (CreateUser sampleStore (.some rootActor) ⟨"bob", false⟩ sampleFresh
        ⟨false, true, false, false⟩).1 = .error e)
    ∧ (CreateUser sampleStore (.some rootActor) ⟨"bob", false⟩ sampleFresh
        ⟨false, true, false, false⟩).2.1 = sampleStore
    ∧ DbEvent.insertUser "bob" ∈
        (CreateUser sampleStore (.some rootActor) ⟨"bob", false⟩ sampleFresh
          ⟨false, true, false, false⟩).2.2 :=
  createUser_atomic_on_late_failure sampleStore rootActor ⟨"bob", false⟩
    sampleFresh ⟨false, true, false, false⟩ rfl (by decide) (by decide)
    (Or.inl rfl) rfl

/-- Inversion of a successful user insert: the returned row carries
the given parameters and is prepended to `users`. -/
theorem dbCreateUser_ok_inv {s : Store} {p : DbCreateUserParams}
    {u : UserRow} {s1 : Store} (h : dbCreateUser s p = .ok (u, s1)) :
    u = ⟨p.id, p.username, p.isStaff⟩ ∧ s1 = ⟨u :: s.users, s.tokens⟩ := by
  unfold dbCreateUser at h
  split at h
  · cases h
  · split at h
    · cases h
    · simp only [Except.ok.injEq, Prod.mk.injEq] at h
      obtain ⟨hu, hs⟩ := h
      subst hu
      exact ⟨rfl, hs.symm⟩

/-- Inversion of a successful token insert: the returned row carries
the given parameters and is prepended to `tokens`. -/
theorem dbCreateToken_ok_inv {s : Store} {p : DbCreateTokenParams}
    {t : TokenRow} {s1 : Store} (h : dbCreateToken s p = .ok (t, s1)) :
    t = ⟨p.id, p.userID, p.token, p.name, p.expiresAt⟩ ∧
    s1 = ⟨s.users, t :: s.tokens⟩ := by
  unfold dbCreateToken at h
  split at h
  · cases h
  · split at h
    · cases h
    · split at h
      · cases h
      · simp only [Except.ok.injEq, Prod.mk.injEq] at h
        obtain ⟨ht, hs⟩ := h
        subst ht
        exact ⟨rfl, hs.symm⟩

/-- Inversion of a successful run of the `CreateUser` unit of work:
the result pairs the inserted user with the inserted token, the token
is owned by that user with the default name and no expiry, and each
row is prepended to its table. -/
theorem createUserTxFn_ok_inv {params : CreateUserParams}
    {fresh : Freshness} {faults : TxFaults} {st : Store}
    {res : CreateUserResult} {st2 : Store} {evs : List DbEvent}
    (h : createUserTxFn params fresh faults st = (.ok (res, st2), evs)) :
    res.token.userID = res.user.id ∧
    res.token.name = "Default Token" ∧
    res.token.expiresAt = Option.none ∧
    st2.users = res.user :: st.users ∧
    st2.tokens = res.token :: st.tokens := by
  rcases hdb : dbCreateUser st ⟨fresh.userID, params.username, params.isStaff⟩
    with e | ⟨u, st1⟩
  · simp [createUserTxFn, hdb] at h
  · cases htf : faults.tokenInsertFails with
    | true =>
        simp [createUserTxFn, hdb, htf] at h
    | false =>
        rcases hdt : dbCreateToken st1
            ⟨fresh.tokenID, u.id, generateToken fresh.randSrc,
             "Default Token", Option.none⟩ with e | ⟨t, st2a⟩
        · simp [createUserTxFn, hdb, htf, hdt] at h
        · simp only [createUserTxFn, hdb, htf, hdt, Bool.false_eq_true,
            if_false, Prod.mk.injEq, Except.ok.injEq] at h
          obtain ⟨⟨hres, hst⟩, _⟩ := h
          obtain ⟨hu, hst1⟩ := dbCreateUser_ok_inv hdb
          obtain ⟨ht, hst2⟩ := dbCreateToken_ok_inv hdt
          subst hres
          subst hst
          subst hst2
          subst hst1
          subst ht
          simp

/-- Claim C6: whenever `CreateUser` returns without error, it returns
the created user row together with exactly one created token row whose
`UserID` equals the user id, whose name is the fixed default
`"Default Token"`, and whose expiry is absent; the final store is the
initial store with exactly those two rows prepended. -/
theorem createUser_success_shape (s : Store)
    (actor : Option AuthenticatedUser) (params : CreateUserParams)
    (fresh : Freshness) (faults : TxFaults) (res : CreateUserResult)
    (st' : Store) (evs : List DbEvent)
    (h : CreateUser s actor params fresh faults = (.ok res, st', evs)) :
    res.token.userID = res.user.id ∧
    res.token.name = "Default Token" ∧
    res.token.expiresAt = Option.none ∧
    st'.users = res.user :: s.users ∧
    st'.tokens = res.token :: s.tokens := by
  cases actor with
  | none => simp [CreateUser] at h
  | some a =>
      cases hstaff : a.isStaff with
      | false => simp [CreateUser, hstaff] at h
      | true =>
          rw [CreateUser] at h
          simp only [hstaff, not_true, if_neg, not_false_iff,
            Bool.true_eq_false] at h
          rcases hfn : createUserTxFn params fresh faults s with ⟨r, evs0⟩
          cases hbf : faults.beginFails with
          | true =>
              rw [dataStoreTransaction, databaseServiceTransaction, hbf] at h
              simp at h
          | false =>
              rw [dataStoreTransaction, databaseServiceTransaction, hbf] at h
              cases r with
              | error e0 =>
                  rw [commitStrategyExecute, hfn] at h
                  simp at h
              | ok p0 =>
                  obtain ⟨res0, st0⟩ := p0
                  rw [commitStrategyExecute, hfn] at h
                  cases hcf : faults.commitFails with
                  | true =>
                      rw [hcf] at h
                      simp at h
                  | false =>
                      rw [hcf] at h
                      simp only [Bool.false_eq_true, if_false,
                        Prod.mk.injEq, Except.ok.injEq] at h
                      obtain ⟨hres, hst, _⟩ := h
                      subst hres
                      subst hst
                      exact createUserTxFn_ok_inv hfn

/-- Witness for C6: the successful creation of user `"bob"` in the
sample store shows the returned token is owned by the returned user,
named `"Default Token"`, with no expiry, and exactly the two new rows
are added. -/
theorem createUser_success_shape_witness :
    ∃ res : CreateUserResult, ∃ st' : Store, ∃ evs : List DbEvent,
      CreateUser sampleStore (.some rootActor) ⟨"bob", false⟩ sampleFresh
        TxFaults.none = (.ok res, st', evs) ∧
      res.token.userID = res.user.id ∧
      res.token.name = "Default Token" ∧
      res.token.expiresAt = Option.none ∧
      st'.users = res.user :: sampleStore.users ∧
      st'.tokens = res.token :: sampleStore.tokens := by
  refine ⟨_, _, _, rfl, ?_⟩
  exact createUser_success_shape sampleStore (.some rootActor) ⟨"bob", false⟩
    sampleFresh TxFaults.none _ _ _ rfl

/-- With unique token secrets, filtering the token table by a
predicate that pins the secret of `t` yields exactly `[t]`. -/
theorem filter_eq_single_of_nodup_secret {l : List TokenRow} {t : TokenRow}
    {p : TokenRow → Bool}
    (hnd : (l.map TokenRow.token).Nodup)
    (ht : t ∈ l) (hpt : p t = true)
    (hkey : ∀ x ∈ l, p x = true → x.token = t.token) :
    l.filter p = [t] := by
  induction l with
  | nil => cases ht
  | cons x xs ih =>
      rw [List.map_cons, List.nodup_cons] at hnd
      obtain ⟨hxnot, hndtail⟩ := hnd
      rcases List.mem_cons.mp ht with rfl | hmem
      · rw [List.filter_cons_of_pos hpt]
        have hrest : xs.filter p = [] := by
          rw [List.filter_eq_nil_iff]
          intro y hy hpy
          exact hxnot (List.mem_map.mpr
            ⟨y, hy, hkey y (List.mem_cons_of_mem _ hy) hpy⟩)
        rw [hrest]
      · have hpx : ¬ p x = true := by
          intro hpxt
          have hxt : x.token = t.token := hkey x (List.mem_cons_self _ _) hpxt
          exact hxnot (List.mem_map.mpr ⟨t, hmem, hxt.symm⟩)
        rw [List.filter_cons_of_neg hpx]
        exact ih hndtail hmem
          (fun y hy hpy => hkey y (List.mem_cons_of_mem _ hy) hpy)

/-- With unique user ids, `find?` on the user table locates exactly the
member with the sought id. -/
theorem find?_user_of_nodup_ids {l : List UserRow} {u : UserRow} {uid : Nat}
    (hnd : (l.map UserRow.id).Nodup) (hu : u ∈ l) (hid : u.id = uid) :
    l.find? (fun x => x.id = uid) = some u := by
  induction l with
  | nil => cases hu
  | cons x xs ih =>
      rw [List.map_cons, List.nodup_cons] at hnd
      obtain ⟨hxnot, hndtail⟩ := hnd
      rcases List.mem_cons.mp hu with rfl | hmem
      · exact List.find?_cons_of_pos xs (by simp [hid])
      · have hx : ¬ (x.id = uid) := by
          intro hcontra
          exact hxnot (List.mem_map.mpr ⟨u, hmem, hid.trans hcontra.symm⟩)
        rw [List.find?_cons_of_neg xs (by simp [hx])]
        exact ih hndtail hmem

/-- Claim C3: under the schema invariants, `GetAuthenticatedUser`
succeeds exactly when the store holds a token row whose secret equals
the input and whose expiry is absent or strictly later than now; on
success it returns the identity of the user joined through the token
`user_id`, and otherwise the invalid-or-expired-token error — issuing
exactly one `GetUserByToken` query either way. -/
theorem getAuthenticatedUser_spec (s : Store) (now : Nat) (tok : String)
    (hinv : StoreInv s) :
    (∀ t, t ∈ s.tokens → t.token = tok → tokenAlive now t = true →
      ∀ u, u ∈ s.users → u.id = t.userID →
        GetAuthenticatedUser s now tok =
          (.ok ⟨u.id, u.username, u.isStaff⟩, [.queryGetUserByToken tok]))
    ∧ ((∀ t, t ∈ s.tokens → ¬(t.token = tok ∧ tokenAlive now t = true)) →
        GetAuthenticatedUser s now tok =
          (.error (.wrap getAuthWrapCtx (.msg "invalid or expired token")),
           [.queryGetUserByToken tok])) := by
  obtain ⟨hids, hsecrets, _⟩ := hinv
  constructor
  · intro t ht htok halive u hu huid
    have hfilter :
        s.tokens.filter (fun x => x.token = tok ∧ tokenAlive now x) = [t] := by
      refine filter_eq_single_of_nodup_secret hsecrets ht ?_ ?_
      · simp [htok, halive]
      · intro x _ hpx
        simp only [decide_eq_true_eq] at hpx
        rw [hpx.1, htok]
    have hfind : s.users.find? (fun x => x.id = t.userID) = some u :=
      find?_user_of_nodup_ids hids hu huid
    have hrows : getUserByTokenRows s now tok = [⟨u.id, u.username, u.isStaff⟩] := by
      rw [getUserByTokenRows, hfilter]
      simp [hfind]
    rw [GetAuthenticatedUser, dbGetUserByToken, hrows]
  · intro hnone
    have hfilter :
        s.tokens.filter (fun x => x.token = tok ∧ tokenAlive now x) = [] := by
      rw [List.filter_eq_nil_iff]
      intro x hx
      simpa using hnone x hx
    have hrows : getUserByTokenRows s now tok = [] := by
      rw [getUserByTokenRows, hfilter]
      rfl
    rw [GetAuthenticatedUser, dbGetUserByToken, hrows]

/-- Witness for C3: in the sample store at time 100, the live token
`"aa"` authenticates as `sampleRoot`, and the unknown secret `"zz"`
yields the invalid-or-expired-token error. -/
theorem getAuthenticatedUser_spec_witness :
    GetAuthenticatedUser sampleStore 100 "aa" =
      (.ok ⟨1, "root", true⟩, [.queryGetUserByToken "aa"]) ∧
    GetAuthenticatedUser sampleStore 100 "zz" =
      (.error (.wrap getAuthWrapCtx (.msg "invalid or expired token")),
       [.queryGetUserByToken "zz"]) :=
  ⟨(getAuthenticatedUser_spec sampleStore 100 "aa" (by decide)).1
      sampleLiveToken (by decide) rfl rfl sampleRoot (by decide) rfl,
   (getAuthenticatedUser_spec sampleStore 100 "zz" (by decide)).2
      (by decide)⟩

/-- Claim C4: an unknown secret and the secret of an existing but
expired token produce the very same error value from
`GetAuthenticatedUser` — the caller cannot tell the two failure modes
apart. -/
theorem getAuthenticatedUser_indistinguishable (s : Store) (now : Nat)
    (tok1 tok2 : String) (tr : TokenRow) (e : Nat)
    (hsecrets : (s.tokens.map TokenRow.token).Nodup)
    (h1 : ∀ t ∈ s.tokens, t.token ≠ tok1)
    (htr : tr ∈ s.tokens) (htrtok : tr.token = tok2)
    (htrexp : tr.expiresAt = Option.some e) (hpast : e ≤ now) :
    (GetAuthenticatedUser s now tok1).1 = (GetAuthenticatedUser s now tok2).1
    ∧ (GetAuthenticatedUser s now tok1).1 =
        .error (.wrap getAuthWrapCtx (.msg "invalid or expired token")) := by
  have hf1 : s.tokens.filter (fun x => x.token = tok1 ∧ tokenAlive now x) = [] := by
    rw [List.filter_eq_nil_iff]
    intro x hx
    simp only [decide_eq_true_eq, not_and]
    intro hxt
    exact absurd hxt (h1 x hx)
  have hf2 : s.tokens.filter (fun x => x.token = tok2 ∧ tokenAlive now x) = [] := by
    rw [List.filter_eq_nil_iff]
    intro x hx
    simp only [decide_eq_true_eq, not_and]
    intro hxt
    have hxtr : x = tr :=
      List.inj_on_of_nodup_map hsecrets hx htr (hxt.trans htrtok.symm)
    subst hxtr
    rw [tokenAlive, htrexp]
    simp
    omega
  have hr1 : getUserByTokenRows s now tok1 = [] := by
    rw [getUserByTokenRows, hf1]; rfl
  have hr2 : getUserByTokenRows s now tok2 = [] := by
    rw [getUserByTokenRows, hf2]; rfl
  rw [GetAuthenticatedUser, GetAuthenticatedUser, dbGetUserByToken,
    dbGetUserByToken, hr1, hr2]
  exact ⟨rfl, rfl⟩

/-- Witness for C4: in the sample store at time 100, the unknown
secret `"zz"` and the expired secret `"bb"` yield identical errors. -/
theorem getAuthenticatedUser_indistinguishable_witness :
    (GetAuthenticatedUser sampleStore 100 "zz").1 =
      (GetAuthenticatedUser sampleStore 100 "bb").1
    ∧ (GetAuthenticatedUser sampleStore 100 "zz").1 =
        .error (.wrap getAuthWrapCtx (.msg "invalid or expired token")) :=
  getAuthenticatedUser_indistinguishable sampleStore 100 "zz" "bb"
    sampleExpiredToken 5 (by decide) (by decide) (by decide) rfl rfl
    (by decide)

/-- Counterexample to claim C7: on a duplicate username, `CreateUser`
does not return a typed duplicate-username error; the store-level
unique-constraint violation is surfaced inside generic wrapping
contexts (`"failed to create user"`, `"DataStore.Transaction(ctx, fn)"`,
`"transaction failed"`, the `CreateUser` call context) with the raw
violation as the innermost error. -/
theorem createUser_duplicate_username_cex :
    CreateUser sampleStore (.some rootActor) ⟨"alice", false⟩ sampleFresh
      TxFaults.none =
      (.error (.wrap createUserWrapCtx (.wrap "transaction failed"
        (.wrap "DataStore.Transaction(ctx, fn)" (.wrap "failed to create user"
          (.store (.uniqueViolation "users_username_key")))))),
       sampleStore,
       [.txBegin, .insertUser "alice", .txRollback false]) ∧
    (CreateUser sampleStore (.some rootActor) ⟨"alice", false⟩ sampleFresh
      TxFaults.none).2.1 = sampleStore := by
  exact ⟨rfl, rfl⟩

/-- Claim C7 (amended): when the store rejects the username as already
taken, `CreateUser` fails with the unique-constraint violation wrapped
in generic context strings — not translated to a typed error — and the
store is unchanged. -/
theorem createUser_duplicate_username_generic_wrap (s : Store)
    (a : AuthenticatedUser) (params : CreateUserParams) (fresh : Freshness)
    (hstaff : a.isStaff = true)
    (hfreeid : s.users.any (fun u => u.id = fresh.userID) = false)
    (hdup : s.users.any (fun u => u.username = params.username) = true) :
    CreateUser s (.some a) params fresh TxFaults.none =
      (.error (.wrap createUserWrapCtx (.wrap "transaction failed"
        (.wrap "DataStore.Transaction(ctx, fn)" (.wrap "failed to create user"
          (.store (.uniqueViolation "users_username_key")))))),
       s, [.txBegin, .insertUser params.username, .txRollback false]) := by
  have hdb : dbCreateUser s ⟨fresh.userID, params.username, params.isStaff⟩ =
      .error (.uniqueViolation "users_username_key") := by
    simp [dbCreateUser, hfreeid, hdup]
  have hfn : createUserTxFn params fresh ⟨false, false, false, false⟩ s =
      (.error (.wrap "failed to create user"
        (.store (.uniqueViolation "users_username_key"))),
       [.insertUser params.username]) := by
    simp [createUserTxFn, hdb]
  simp [CreateUser, hstaff, dataStoreTransaction, databaseServiceTransaction,
    TxFaults.none, commitStrategyExecute, hfn]

/-- Witness for amended C7: creating `"root"` again in the sample
store yields the wrapped unique-violation error. -/
theorem createUser_duplicate_username_generic_wrap_witness :
    CreateUser sampleStore (.some rootActor) ⟨"root", true⟩ sampleFresh
      TxFaults.none =
      (.error (.wrap createUserWrapCtx (.wrap "transaction failed"
        (.wrap "DataStore.Transaction(ctx, fn)" (.wrap "failed to create user"
          (.store (.uniqueViolation "users_username_key")))))),
       sampleStore,
       [.txBegin, .insertUser "root", .txRollback false]) :=
  createUser_duplicate_username_generic_wrap sampleStore rootActor
    ⟨"root", true⟩ sampleFresh rfl (by decide) (by decide)

/-- Counterexample to claim C8: for the empty input string,
`GetAuthenticatedUser` does interact with the store — the
`GetUserByToken` query is issued — and the resulting error is the
ordinary invalid-or-expired-token error, not a distinct missing-token
error. -/
theorem getAuthenticatedUser_empty_token_cex :
    (GetAuthenticatedUser sampleStore 100 "").2 ≠ ([] : List DbEvent) ∧
    (GetAuthenticatedUser sampleStore 100 "").2 =
      [.queryGetUserByToken ""] ∧
    (GetAuthenticatedUser sampleStore 100 "").1 =
      .error (.wrap getAuthWrapCtx (.msg "invalid or expired token")) := by
  refine ⟨?_, rfl, rfl⟩
  decide

/-- Claim C8 (amended): for the empty input string,
`GetAuthenticatedUser` issues the `GetUserByToken` store query exactly
as for any other input, and — when no token row has the empty secret —
fails with the same invalid-or-expired-token error; the code has no
empty-input short-circuit and no missing-token error. -/
theorem getAuthenticatedUser_empty_token_queries_store (s : Store)
    (now : Nat) (h : ∀ t ∈ s.tokens, t.token ≠ "") :
    GetAuthenticatedUser s now "" =
      (.error (.wrap getAuthWrapCtx (.msg "invalid or expired token")),
       [.queryGetUserByToken ""]) := by
  have hfilter :
      s.tokens.filter (fun x => x.token = "" ∧ tokenAlive now x) = [] := by
    rw [List.filter_eq_nil_iff]
    intro x hx
    simp only [decide_eq_true_eq, not_and]
    intro hxt
    exact absurd hxt (h x hx)
  have hrows : getUserByTokenRows s now "" = [] := by
    rw [getUserByTokenRows, hfilter]
    rfl
  rw [GetAuthenticatedUser, dbGetUserByToken, hrows]

/-- Witness for amended C8: the sample store holds no empty secret, so
the empty input reaches the store and fails generically. -/
theorem getAuthenticatedUser_empty_token_queries_store_witness :
    GetAuthenticatedUser sampleStore 42 "" =
      (.error (.wrap getAuthWrapCtx (.msg "invalid or expired token")),
       [.queryGetUserByToken ""]) :=
  getAuthenticatedUser_empty_token_queries_store sampleStore 42 (by decide)

/-- Claim C10: `AuthMiddleware` calls the wrapped handler only when
bearer-token extraction and token authentication both succeed; for a
missing Authorization header, a header not using the Bearer scheme, an
empty token after the prefix, or a token failing authentication, it
responds 401 with the same body `"Unauthorized"` and never calls the
next handler. -/
theorem authMiddleware_gate (s : Store) (now : Nat) (hdr : String) :
    (∀ u, AuthMiddleware s now hdr = .callNext u →
      ∃ tok, extractBearerToken hdr = .ok tok ∧
        (authenticateToken s now tok).1 = .ok u)
    ∧ (hdr = "" → AuthMiddleware s now hdr = .respond 401 "Unauthorized")
    ∧ (hasPrefixChars hdr bearerScheme = false →
        AuthMiddleware s now hdr = .respond 401 "Unauthorized")
    ∧ (hdr = "Bearer " → AuthMiddleware s now hdr = .respond 401 "Unauthorized")
    ∧ (∀ tok e, extractBearerToken hdr = .ok tok →
        (authenticateToken s now tok).1 = .error e →
        AuthMiddleware s now hdr = .respond 401 "Unauthorized") := by
  refine ⟨?_, ?_, ?_, ?_, ?_⟩
  · intro u hcall
    rw [AuthMiddleware] at hcall
    split at hcall
    · cases hcall
    · rename_i token hex2
      split at hcall
      · cases hcall
      · rename_i user evs hat2
        cases hcall
        exact ⟨token, hex2, by rw [hat2]⟩
  · intro hempty
    subst hempty
    rfl
  · intro hpre
    by_cases hempty : hdr = ""
    · subst hempty
      rfl
    · rw [AuthMiddleware, extractBearerToken]
      simp [hempty, hpre]
  · intro hbearer
    subst hbearer
    rfl
  · intro tok e hex hat
    rw [AuthMiddleware, hex]
    split
    · rfl
    · rename_i token hat2
      injection hat2 with htok
      subst htok
      split
      · rfl
      · rename_i user evs hat3
        rw [hat3] at hat
        simp at hat

/-- Witness for C10: concrete requests against the sample store — a
valid bearer token reaches the handler, while a missing header, a
non-Bearer header, an empty bearer token, and an unknown token all
yield 401 `"Unauthorized"`. -/
theorem authMiddleware_gate_witness :
    AuthMiddleware sampleStore 100 "" = .respond 401 "Unauthorized" ∧
    AuthMiddleware sampleStore 100 "Basic xyz" = .respond 401 "Unauthorized" ∧
    AuthMiddleware sampleStore 100 "Bearer " = .respond 401 "Unauthorized" ∧
    AuthMiddleware sampleStore 100 "Bearer zz" = .respond 401 "Unauthorized" :=
  ⟨(authMiddleware_gate sampleStore 100 "").2.1 rfl,
   (authMiddleware_gate sampleStore 100 "Basic xyz").2.2.1 (by decide),
   (authMiddleware_gate sampleStore 100 "Bearer ").2.2.2.1 rfl,
   (authMiddleware_gate sampleStore 100 "Bearer zz").2.2.2.2 "zz"
     (.wrap "authentication failed"
       (.wrap getAuthWrapCtx (.msg "invalid or expired token")))
     rfl rfl⟩

end FacilityReservation
